import Mathlib

/-!
Shallow embedding of the count-synchronization and content-cache subsystem of
the forever-message-ipfs repository.

The TypeScript sources embedded here:
* `src/state-tracker.ts` — `StateTracker` (per-bottle counters and IPFS hash pointer);
* `src/service.ts` — `IPFSService` (content cache, `getItem`, `validateItem`,
  `updateBottleCounts`, `getFromCache`, `storeInCache`);
* `src/ipfs-count-sync.ts` — `IPFSCountSync.syncBottleCommentCount` and its
  `syncBottleCounts` variant;
* `forever-manager.ts` — `ForeverManager.promote`.

Modelling conventions:
* JavaScript `Map` objects become association lists with JS `Map` semantics
  (`set` keeps the insertion position of an existing key, `delete` removes the
  binding; JS maps never hold duplicate keys, so deletion is a filter).
* Thrown exceptions become `Except` results; in-place mutation becomes explicit
  state passing.  Service operations return a `(result, state)` pair so that
  cache mutations that happen before a throw are preserved, exactly as the
  mutation of `this.cache` persists in the TypeScript code when a later step
  throws.
* TS `number` values that the code treats as integers (counts, timestamps,
  bottle ids) become `Int`.
* External collaborators (the Storacha upload client, the HTTP gateway fetch,
  the smart-contract ledger) are parameters: an operation's single network
  round-trip is an `Except`-valued argument, a per-payload collaborator is a
  function argument.  The service is modelled as initialized (`initialize`,
  `login` and the DID plumbing are outside every claim).
-/

namespace ForeverMessage

/-! ## Association lists with JS `Map` semantics -/

section AList

variable {κ α : Type} [DecidableEq κ]

/-- `Map.get` / first binding for a key. -/
def alGet : List (κ × α) → κ → Option α
  | [], _ => none
  | (k', v) :: rest, k => if k' = k then some v else alGet rest k

/-- `Map.set`: replace the binding in place when the key is present
(JS maps keep the original insertion position), append otherwise. -/
def alSet : List (κ × α) → κ → α → List (κ × α)
  | [], k, v => [(k, v)]
  | (k', v') :: rest, k, v =>
    if k' = k then (k, v) :: rest else (k', v') :: alSet rest k v

/-- `Map.delete`: drop the binding for the key (JS maps hold at most one). -/
def alDelete (m : List (κ × α)) (k : κ) : List (κ × α) :=
  m.filter fun p => if p.1 = k then false else true

end AList

/-! ## StateTracker (`src/state-tracker.ts`) -/

/-- `BottleState` from `state-tracker.ts`: mutable counters plus the current
IPFS hash pointer for one bottle. -/
structure BottleState where
  likeCount : Int
  commentCount : Int
  currentIpfsHash : String
  deriving DecidableEq, Repr

/-- The private `bottles: Map<number, BottleState>` of a `StateTracker`. -/
abbrev TrackerMap := List (Int × BottleState)

/-- `IPFSErrorCode` enum from `service.ts`. -/
inductive IPFSErrorCode where
  | INIT_FAILED
  | UPLOAD_FAILED
  | FETCH_FAILED
  | INVALID_CID
  | PARSE_FAILED
  | NOT_INITIALIZED
  | SPACE_REGISTRATION_FAILED
  deriving DecidableEq, Repr

/-- A thrown JavaScript error.  `plain` is a bare `new Error(message)`;
`ipfs` is an `IPFSError { code, message, originalError }`. -/
inductive JSError where
  | plain : String → JSError
  | ipfs : IPFSErrorCode → String → Option JSError → JSError

namespace StateTracker

/-- `StateTracker.load`: wholesale replacement of the entry for `bottleId`. -/
def load (m : TrackerMap) (bottleId : Int) (ipfsHash : String)
    (likeCount commentCount : Int) : TrackerMap :=
  alSet m bottleId
    { likeCount := likeCount, commentCount := commentCount,
      currentIpfsHash := ipfsHash }

/-- `StateTracker.get`: throws when the bottle was never loaded. -/
def get (m : TrackerMap) (bottleId : Int) : Except JSError BottleState :=
  match alGet m bottleId with
  | some st => .ok st
  | none => .error (.plain "Bottle not loaded. Call load() first.")

/-- `StateTracker.incrementLikes`; returns the new count and the new map. -/
def incrementLikes (m : TrackerMap) (bottleId : Int) :
    Except JSError (Int × TrackerMap) :=
  (get m bottleId).map fun st =>
    let st' := { st with likeCount := st.likeCount + 1 }
    (st'.likeCount, alSet m bottleId st')

/-- `StateTracker.decrementLikes`: `Math.max(0, likeCount - 1)`. -/
def decrementLikes (m : TrackerMap) (bottleId : Int) :
    Except JSError (Int × TrackerMap) :=
  (get m bottleId).map fun st =>
    let st' := { st with likeCount := max 0 (st.likeCount - 1) }
    (st'.likeCount, alSet m bottleId st')

/-- `StateTracker.incrementComments`. -/
def incrementComments (m : TrackerMap) (bottleId : Int) :
    Except JSError (Int × TrackerMap) :=
  (get m bottleId).map fun st =>
    let st' := { st with commentCount := st.commentCount + 1 }
    (st'.commentCount, alSet m bottleId st')

/-- `StateTracker.updateIPFSHash`: rewrites only the pointer field. -/
def updateIPFSHash (m : TrackerMap) (bottleId : Int) (newHash : String) :
    Except JSError TrackerMap :=
  (get m bottleId).map fun st =>
    alSet m bottleId { st with currentIpfsHash := newHash }

end StateTracker

/-! ### Operation traces over the tracker

A mutator whose `get` throws leaves the map untouched (the exception is raised
before any field assignment), so the post-state of any call is total. -/

/-- One `StateTracker` call, without its target id. -/
inductive TrackerOp where
  | load (ipfsHash : String) (likeCount commentCount : Int)
  | incrementLikes
  | decrementLikes
  | incrementComments
  | updateIPFSHash (newHash : String)

/-- The tracker map after one call on `bottleId` (a throwing call mutates
nothing). -/
def applyOp (m : TrackerMap) (bottleId : Int) : TrackerOp → TrackerMap
  | .load h l c => StateTracker.load m bottleId h l c
  | .incrementLikes =>
    match StateTracker.incrementLikes m bottleId with
    | .ok (_, m') => m'
    | .error _ => m
  | .decrementLikes =>
    match StateTracker.decrementLikes m bottleId with
    | .ok (_, m') => m'
    | .error _ => m
  | .incrementComments =>
    match StateTracker.incrementComments m bottleId with
    | .ok (_, m') => m'
    | .error _ => m
  | .updateIPFSHash h =>
    match StateTracker.updateIPFSHash m bottleId h with
    | .ok m' => m'
    | .error _ => m

/-- The tracker map after a sequence of calls, each a `(targetId, op)` pair. -/
def applyTrace (m : TrackerMap) : List (Int × TrackerOp) → TrackerMap
  | [] => m
  | (bottleId, op) :: rest => applyTrace (applyOp m bottleId op) rest

/-! ## JSON payloads and the IPFSService (`src/service.ts`)

A fetched document is the value of `await response.json()`.  Every field of an
`IPFSBottle` / `IPFSComment` is a JSON primitive, and `validateItem` only ever
inspects top-level fields with `typeof`, so a document is modelled as either a
non-object (`null`, string, number, boolean — all of which fail validation at
its first check, as does an array, which passes the `typeof` test but fails the
`message` check with the same `PARSE_FAILED` code) or an object, i.e. an
ordered list of key/primitive pairs. -/

/-- A primitive JSON value. -/
inductive JPrim where
  | jstr : String → JPrim
  | jnum : Int → JPrim
  | jbool : Bool → JPrim
  | jnull : JPrim
  deriving DecidableEq, Repr

/-- A JSON object: ordered fields, unique keys (`JSON.parse` output). -/
abbrev JObject := List (String × JPrim)

/-- A fetched JSON document: `none` when it is not an object. -/
abbrev RawData := Option JObject

/-- Field access `record.field` (`undefined` when absent). -/
def objGet (fs : JObject) (k : String) : Option JPrim :=
  alGet fs k

/-- Object-spread override `{...obj, k: v}`: an existing key keeps its
position and gets the new value, a new key is appended. -/
def objSet (fs : JObject) (k : String) (v : JPrim) : JObject :=
  alSet fs k v

/-- `typeof record.field === "string"`. -/
def isStrField (fs : JObject) (k : String) : Bool :=
  match objGet fs k with
  | some (.jstr _) => true
  | _ => false

/-- `typeof record.field === "number"`. -/
def isNumField (fs : JObject) (k : String) : Bool :=
  match objGet fs k with
  | some (.jnum _) => true
  | _ => false

/-- `data.type === t` for a fetched document (`false` on a non-object, whose
`type` access yields `undefined`). -/
def RawData.typeIs (d : RawData) (t : String) : Bool :=
  match d with
  | some fs => objGet fs "type" = some (.jstr t)
  | none => false

/-- `UploadResult` from the types package, as used by `service.ts`. -/
structure UploadResult where
  cid : String
  size : Int
  url : String
  deriving DecidableEq, Repr

/-- A cache entry of `IPFSService` (`CacheEntry<IPFSItem>`). -/
structure CacheEntry where
  data : RawData
  timestamp : Int
  expiresAt : Int
  deriving DecidableEq, Repr

/-- The private `cache: Map<string, CacheEntry<IPFSItem>>`. -/
abbrev Cache := List (String × CacheEntry)

/-- The mutable fields of an (initialized) `IPFSService`: the cache and the
constructor-fixed `cacheExpirationMs` (5 minutes in `service.ts`). -/
structure ServiceState where
  cache : Cache
  cacheExpirationMs : Int
  deriving DecidableEq, Repr

namespace IPFSService

/-- An `IPFSError(PARSE_FAILED, msg)` with no original error. -/
def parseError (msg : String) : JSError :=
  .ipfs .PARSE_FAILED msg none

/-- `IPFSService.validateItem`: the structural checks, in source order. -/
def validateItem (d : RawData) : Except JSError Unit :=
  match d with
  | none => .error (parseError "Invalid data: not an object")
  | some fs =>
    if ¬ isStrField fs "message" then
      .error (parseError "Invalid data: missing or invalid \"message\" field")
    else if ¬ (objGet fs "type" = some (.jstr "bottle") ∨
               objGet fs "type" = some (.jstr "comment")) then
      .error (parseError "Invalid data: type must be \"bottle\" or \"comment\"")
    else if ¬ isStrField fs "userId" then
      .error (parseError "Invalid data: missing or invalid \"userId\" field")
    else if ¬ isNumField fs "timestamp" then
      .error (parseError "Invalid data: missing or invalid \"timestamp\" field")
    else if objGet fs "type" = some (.jstr "comment") ∧ ¬ isNumField fs "bottleId" then
      .error (parseError "Invalid data: comment missing \"bottleId\" field")
    else
      .ok ()

/-- `IPFSService.getFromCache`: returns the hit (if any) and the cache after
the lazy eviction of an expired entry.  Expiry check is `now > entry.expiresAt`
(strict). -/
def getFromCache (c : Cache) (cid : String) (now : Int) :
    Option RawData × Cache :=
  match alGet c cid with
  | none => (none, c)
  | some entry =>
    if now > entry.expiresAt then (none, alDelete c cid)
    else (some entry.data, c)

/-- `IPFSService.storeInCache`: `expiresAt = now + cacheExpirationMs`. -/
def storeInCache (c : Cache) (cid : String) (d : RawData) (now ttl : Int) :
    Cache :=
  alSet c cid { data := d, timestamp := now, expiresAt := now + ttl }

/-- The outcome of the `fetch(url)` + `response.json()` round trip inside
`getItem`: a transport-level throw (network error or non-ok HTTP status), or a
parsed JSON body. -/
inductive FetchOutcome where
  | fail : JSError → FetchOutcome
  | body : RawData → FetchOutcome

/-- The `IPFSError(FETCH_FAILED, ..., originalError)` built by `getItem`'s
catch-all, which wraps every error thrown inside its `try` block — including
the `PARSE_FAILED` error of `validateItem`. -/
def fetchFailed (cid : String) (e : JSError) : JSError :=
  .ipfs .FETCH_FAILED ("Failed to fetch data from IPFS: " ++ cid) (some e)

/-- `IPFSService.getItem`: cache lookup, then fetch, validate and cache.
Returns the result together with the service state after the call (cache
mutations persist even when the call throws). -/
def getItem (s : ServiceState) (cid : String) (now : Int)
    (outcome : FetchOutcome) : Except JSError RawData × ServiceState :=
  match getFromCache s.cache cid now with
  | (some cached, c') => (.ok cached, { s with cache := c' })
  | (none, c') =>
    let s1 : ServiceState := { s with cache := c' }
    match outcome with
    | .fail e => (.error (fetchFailed cid e), s1)
    | .body data =>
      match validateItem data with
      | .error e => (.error (fetchFailed cid e), s1)
      | .ok _ =>
        (.ok data,
         { s1 with cache := storeInCache s1.cache cid data now s.cacheExpirationMs })

/-- `IPFSService.uploadJSON`, with the Storacha client call abstracted as
`upload`; a client failure is wrapped as `UPLOAD_FAILED`. -/
def uploadJSON (upload : RawData → Except JSError UploadResult)
    (d : RawData) : Except JSError UploadResult :=
  match upload d with
  | .ok r => .ok r
  | .error e => .error (.ipfs .UPLOAD_FAILED "Failed to upload data to IPFS" (some e))

/-- `{...originalBottle, likeCount, commentCount}`: the prior payload with the
two count fields replaced.  (Spreading a non-object yields an empty object;
that branch is unreachable behind the `type === "bottle"` check.) -/
def setCounts (d : RawData) (likeCount commentCount : Int) : RawData :=
  match d with
  | some fs =>
    some (objSet (objSet fs "likeCount" (.jnum likeCount))
      "commentCount" (.jnum commentCount))
  | none => some [("likeCount", .jnum likeCount), ("commentCount", .jnum commentCount)]

/-- `IPFSService.updateBottleCounts`: fetch the prior payload via `getItem`,
require `type === "bottle"`, delete the original cache entry and upload the
payload with both counts replaced. -/
def updateBottleCounts (s : ServiceState) (originalCid : String)
    (likeCount commentCount : Int) (now : Int) (outcome : FetchOutcome)
    (upload : RawData → Except JSError UploadResult) :
    Except JSError UploadResult × ServiceState :=
  match getItem s originalCid now outcome with
  | (.error e, s1) => (.error e, s1)
  | (.ok originalBottle, s1) =>
    if originalBottle.typeIs "bottle" then
      let updatedBottle := setCounts originalBottle likeCount commentCount
      let s2 : ServiceState := { s1 with cache := alDelete s1.cache originalCid }
      (uploadJSON upload updatedBottle, s2)
    else
      (.error (.ipfs .PARSE_FAILED "CID does not point to a bottle" none), s1)

end IPFSService

/-! ## Error observation helpers -/

/-- The `code` of a thrown error (`none` for a plain `Error`). -/
def JSError.codeOf : JSError → Option IPFSErrorCode
  | .plain _ => none
  | .ipfs c _ _ => some c

/-- The `code` of a thrown error's `originalError`. -/
def JSError.originalCodeOf : JSError → Option IPFSErrorCode
  | .plain _ => none
  | .ipfs _ _ none => none
  | .ipfs _ _ (some e) => e.codeOf

/-- The `code` of the error carried by a failed `Except` result. -/
def errCodeOf {α : Type} : Except JSError α → Option IPFSErrorCode
  | .error e => e.codeOf
  | .ok _ => none

/-- The `originalError.code` of the error carried by a failed result. -/
def errOriginalCodeOf {α : Type} : Except JSError α → Option IPFSErrorCode
  | .error e => e.originalCodeOf
  | .ok _ => none

/-! ## IPFSCountSync (`src/ipfs-count-sync.ts` and its counts variant)

The two network collaborators are parameters: `storeWrite` is the
content-store round trip (`ipfsService.updateBottleCommentCount`, a method of
the service whose body is not part of these sources — only its outcome, an
`UploadResult` or a throw, matters here), `ledgerUpdate` is
`contract.updateBottleIPFS`. -/

namespace IPFSCountSync

/-- `IPFSCountSync.syncBottleCommentCount`: read tracker state, write the new
snapshot (comment count only), update the ledger pointer, then — and only
then — update the tracker's pointer. -/
def syncBottleCommentCount (tracker : TrackerMap) (bottleId : Int)
    (storeWrite : String → Int → Except JSError UploadResult)
    (ledgerUpdate : Int → String → Except JSError Unit) :
    Except JSError TrackerMap :=
  match StateTracker.get tracker bottleId with
  | .error e => .error e
  | .ok bottleState =>
    match storeWrite bottleState.currentIpfsHash bottleState.commentCount with
    | .error e => .error e
    | .ok newMetadata =>
      match ledgerUpdate bottleId newMetadata.cid with
      | .error e => .error e
      | .ok _ =>
        match StateTracker.updateIPFSHash tracker bottleId newMetadata.cid with
        | .error e => .error e
        | .ok m' => .ok m'

/-- The tracker map a caller observes after a sync call: the updated map on
success, the unchanged input map when the call threw. -/
def syncOutcomeTracker (tracker : TrackerMap)
    (r : Except JSError TrackerMap) : TrackerMap :=
  match r with
  | .ok m' => m'
  | .error _ => tracker

/-- Steps 3 and 4 of `IPFSCountSync.syncBottleCounts`, applied to the outcome
of the content-store step. -/
def syncFinish (tracker : TrackerMap) (bottleId : Int)
    (storeStep : Except JSError UploadResult × ServiceState)
    (ledgerUpdate : Int → String → Except JSError Unit) :
    Except JSError TrackerMap × ServiceState :=
  match storeStep with
  | (.error e, s1) => (.error e, s1)
  | (.ok newMetadata, s1) =>
    match ledgerUpdate bottleId newMetadata.cid with
    | .error e => (.error e, s1)
    | .ok _ =>
      match StateTracker.updateIPFSHash tracker bottleId newMetadata.cid with
      | .error e => (.error e, s1)
      | .ok m' => (.ok m', s1)

/-- `IPFSCountSync.syncBottleCounts` (the both-counts variant): fetch the
tracker state, call `ipfsService.updateBottleCounts` with the tracker's hash
and both current counters, then update ledger pointer and tracker pointer. -/
def syncBottleCounts (tracker : TrackerMap) (bottleId : Int)
    (s : ServiceState) (now : Int) (outcome : IPFSService.FetchOutcome)
    (upload : RawData → Except JSError UploadResult)
    (ledgerUpdate : Int → String → Except JSError Unit) :
    Except JSError TrackerMap × ServiceState :=
  match StateTracker.get tracker bottleId with
  | .error e => (.error e, s)
  | .ok bottleState =>
    syncFinish tracker bottleId
      (IPFSService.updateBottleCounts s bottleState.currentIpfsHash
        bottleState.likeCount bottleState.commentCount now outcome upload)
      ledgerUpdate

end IPFSCountSync

/-! ## ForeverManager (`forever-manager.ts`) -/

/-- `ForeverThresholds` (defaults `{likes: 100, comments: 4}`). -/
structure ForeverThresholds where
  likes : Int
  comments : Int
  deriving DecidableEq, Repr

/-- The slice of `contract.getBottle`'s return value that `promote` reads. -/
structure LedgerBottle where
  isForever : Bool
  deriving DecidableEq, Repr

namespace ForeverManager

/-- `ForeverManager.meetsThreshold` (throws when the bottle is not loaded). -/
def meetsThreshold (tracker : TrackerMap) (bottleId : Int)
    (thresholds : ForeverThresholds) : Except JSError Bool :=
  (StateTracker.get tracker bottleId).map fun bottleState =>
    decide (bottleState.likeCount ≥ thresholds.likes ∧
            bottleState.commentCount ≥ thresholds.comments)

/-- `ForeverManager.promote`.  `getBottle` is the ledger read of the bottle's
promoted flag, `markResult` the outcome of `contract.markBottleAsForever`.
The returned `Bool` records whether `markBottleAsForever` was invoked. -/
def promote (tracker : TrackerMap) (bottleId : Int)
    (thresholds : ForeverThresholds)
    (getBottle : Except JSError LedgerBottle)
    (markResult : Except JSError Unit) : Except JSError Bool :=
  match meetsThreshold tracker bottleId thresholds with
  | .error e => .error e
  | .ok false => .ok false
  | .ok true =>
    match getBottle with
    | .error e => .error e
    | .ok bottle =>
      if bottle.isForever then .ok false
      else
        match markResult with
        | .error e => .error e
        | .ok _ => .ok true

end ForeverManager

/-! ## Derived notions used by the statements -/

/-- The entry a single tracker call leaves at its own target id, as a function
of the entry found there (used to reason about traces). -/
def opEffect (entry : Option BottleState) : TrackerOp → Option BottleState
  | .load h l c =>
    some { likeCount := l, commentCount := c, currentIpfsHash := h }
  | .incrementLikes => entry.map fun st => { st with likeCount := st.likeCount + 1 }
  | .decrementLikes =>
    entry.map fun st => { st with likeCount := max 0 (st.likeCount - 1) }
  | .incrementComments =>
    entry.map fun st => { st with commentCount := st.commentCount + 1 }
  | .updateIPFSHash h => entry.map fun st => { st with currentIpfsHash := h }

/-- The subsequence of a call trace that targets `b`. -/
def opsFor (ops : List (Int × TrackerOp)) (b : Int) : List (Int × TrackerOp) :=
  ops.filter fun p => if p.1 = b then true else false

/-- Non-negative counters in one tracker entry. -/
def NonNegState (st : BottleState) : Prop :=
  0 ≤ st.likeCount ∧ 0 ≤ st.commentCount

instance (st : BottleState) : Decidable (NonNegState st) := by
  unfold NonNegState
  infer_instance

/-- Every entry of the tracker has non-negative counters. -/
def TrackerNonNeg (m : TrackerMap) : Prop :=
  ∀ p ∈ m, NonNegState p.2

instance (m : TrackerMap) : Decidable (TrackerNonNeg m) := by
  unfold TrackerNonNeg
  infer_instance

/-- A call whose seeded counts (if it is a `load`) are non-negative. -/
def loadNonNeg : TrackerOp → Prop
  | .load _ l c => 0 ≤ l ∧ 0 ≤ c
  | _ => True

instance (op : TrackerOp) : Decidable (loadNonNeg op) := by
  unfold loadNonNeg
  cases op <;> infer_instance

/-! ## Concrete fixtures (shared by witnesses and counterexamples) -/

/-- A well-formed bottle payload as `getItem` would fetch it. -/
def sampleBottlePayload : RawData :=
  some [("message", .jstr "Hello World"), ("type", .jstr "bottle"),
    ("userId", .jstr "user123"), ("timestamp", .jnum 1700000000),
    ("createdAt", .jstr "2023-11-14T22:13:20.000Z"),
    ("likeCount", .jnum 3), ("commentCount", .jnum 1)]

/-- A well-formed comment payload (validates, but is not a bottle). -/
def sampleCommentPayload : RawData :=
  some [("message", .jstr "Nice bottle!"), ("type", .jstr "comment"),
    ("bottleId", .jnum 1), ("userId", .jstr "user456"),
    ("timestamp", .jnum 1700000001),
    ("createdAt", .jstr "2023-11-14T22:13:21.000Z")]

/-- A malformed payload: its `message` field is a number, not a string. -/
def badPayload : RawData :=
  some [("message", .jnum 7), ("type", .jstr "bottle"),
    ("userId", .jstr "user123"), ("timestamp", .jnum 1700000000)]

/-- A freshly constructed service: empty cache, 5-minute expiry. -/
def emptyService : ServiceState :=
  { cache := [], cacheExpirationMs := 300000 }

/-- Top-level field access on a fetched document (`undefined` on a
non-object). -/
def RawData.fieldOf (d : RawData) (k : String) : Option JPrim :=
  match d with
  | some fs => objGet fs k
  | none => none

/-- A content-store stub that accepts any payload and answers with `QmNew`. -/
def sampleUpload : RawData → Except JSError UploadResult :=
  fun _ => .ok { cid := "QmNew", size := 100, url := "https://gw/QmNew" }

/-- A ledger stub whose pointer update always succeeds. -/
def sampleLedgerOk : Int → String → Except JSError Unit :=
  fun _ _ => .ok ()

/-- The service after `getItem` cached `sampleBottlePayload` under `QmOrig`
at time 0. -/
def serviceWithBottleCached : ServiceState :=
  { cache := [("QmOrig",
      { data := sampleBottlePayload, timestamp := 0, expiresAt := 300000 })],
    cacheExpirationMs := 300000 }

/-- The service after `getItem` cached `sampleCommentPayload` under `QmC`
at time 0. -/
def serviceWithCommentCached : ServiceState :=
  { cache := [("QmC",
      { data := sampleCommentPayload, timestamp := 0, expiresAt := 300000 })],
    cacheExpirationMs := 300000 }

/-- A tracker with two loaded bottles (scenario 3 of the spec). -/
def sampleTrackerTwo : TrackerMap :=
  [(1, { likeCount := 10, commentCount := 5, currentIpfsHash := "QmHash1" }),
   (2, { likeCount := 20, commentCount := 10, currentIpfsHash := "QmHash2" })]

/-- A tracker whose bottle 1 has zero likes. -/
def sampleTrackerZeroLikes : TrackerMap :=
  [(1, { likeCount := 0, commentCount := 4, currentIpfsHash := "QmTest123" })]

/-! # Theorems -/

/-! ## Association-list lemmas -/

section AListLemmas

variable {κ α : Type} [DecidableEq κ]

theorem alGet_alSet_self (m : List (κ × α)) (k : κ) (v : α) :
    alGet (alSet m k v) k = some v := by
  induction m with
  | nil => simp [alSet, alGet]
  | cons p rest ih =>
    obtain ⟨k', v'⟩ := p
    by_cases h : k' = k <;> simp [alSet, alGet, h, ih]

theorem alGet_alSet_ne (m : List (κ × α)) (k k' : κ) (v : α) (h : k ≠ k') :
    alGet (alSet m k v) k' = alGet m k' := by
  induction m with
  | nil => simp [alSet, alGet, h]
  | cons p rest ih =>
    obtain ⟨k'', v''⟩ := p
    by_cases h' : k'' = k
    · subst h'
      simp [alSet, alGet, h]
    · simp [alSet, alGet, h', ih]

theorem alGet_alDelete_self (m : List (κ × α)) (k : κ) :
    alGet (alDelete m k) k = none := by
  induction m with
  | nil => simp [alDelete, alGet]
  | cons p rest ih =>
    obtain ⟨k', v'⟩ := p
    by_cases h : k' = k <;>
      simp_all [alDelete, alGet, h, List.filter]

theorem alGet_alDelete_ne (m : List (κ × α)) (k k' : κ) (h : k ≠ k') :
    alGet (alDelete m k) k' = alGet m k' := by
  induction m with
  | nil => simp [alDelete, alGet]
  | cons p rest ih =>
    obtain ⟨k'', v''⟩ := p
    by_cases h' : k'' = k
    · subst h'
      simp_all [alDelete, alGet, List.filter, Ne.symm h]
    · by_cases h'' : k'' = k' <;>
        simp_all [alDelete, alGet, List.filter, h']

theorem mem_alSet (m : List (κ × α)) (k : κ) (v : α) (p : κ × α) :
    p ∈ alSet m k v → p = (k, v) ∨ p ∈ m := by
  induction m with
  | nil => intro hp; simpa [alSet] using hp
  | cons q rest ih =>
    obtain ⟨k', v'⟩ := q
    intro hp
    by_cases h : k' = k
    · subst h
      simp only [alSet, if_pos rfl, if_true, eq_self_iff_true, List.mem_cons] at hp
      rcases hp with h1 | h1
      · exact Or.inl h1
      · exact Or.inr (List.mem_cons_of_mem _ h1)
    · simp only [alSet, if_neg h, List.mem_cons] at hp
      rcases hp with h1 | h1
      · exact Or.inr (List.mem_cons.2 (Or.inl h1))
      · rcases ih h1 with h2 | h2
        · exact Or.inl h2
        · exact Or.inr (List.mem_cons_of_mem _ h2)

end AListLemmas

/-! ## StateTracker lemmas -/

theorem stateTracker_get_ok (m : TrackerMap) (bottleId : Int) (st : BottleState) :
    StateTracker.get m bottleId = .ok st ↔ alGet m bottleId = some st := by
  cases h : alGet m bottleId <;> simp [StateTracker.get, h]

/-- A tracker call never touches the entry of another id. -/
theorem alGet_applyOp_other (m : TrackerMap) (a b : Int) (hab : a ≠ b)
    (op : TrackerOp) : alGet (applyOp m a op) b = alGet m b := by
  cases op with
  | load h l c => exact alGet_alSet_ne m a b _ hab
  | incrementLikes =>
    simp only [applyOp, StateTracker.incrementLikes, StateTracker.get]
    cases h : alGet m a with
    | none => simp [Except.map]
    | some st => simp [Except.map, alGet_alSet_ne m a b _ hab]
  | decrementLikes =>
    simp only [applyOp, StateTracker.decrementLikes, StateTracker.get]
    cases h : alGet m a with
    | none => simp [Except.map]
    | some st => simp [Except.map, alGet_alSet_ne m a b _ hab]
  | incrementComments =>
    simp only [applyOp, StateTracker.incrementComments, StateTracker.get]
    cases h : alGet m a with
    | none => simp [Except.map]
    | some st => simp [Except.map, alGet_alSet_ne m a b _ hab]
  | updateIPFSHash newHash =>
    simp only [applyOp, StateTracker.updateIPFSHash, StateTracker.get]
    cases h : alGet m a with
    | none => simp [Except.map]
    | some st => simp [Except.map, alGet_alSet_ne m a b _ hab]

/-- The entry a call leaves at its own target depends only on the entry that
was there. -/
theorem alGet_applyOp_self (m : TrackerMap) (b : Int) (op : TrackerOp) :
    alGet (applyOp m b op) b = opEffect (alGet m b) op := by
  cases op with
  | load h l c => exact alGet_alSet_self m b _
  | incrementLikes =>
    simp only [applyOp, StateTracker.incrementLikes, StateTracker.get]
    cases h : alGet m b with
    | none => simp [Except.map, opEffect, h]
    | some st => simp [Except.map, opEffect, h, alGet_alSet_self]
  | decrementLikes =>
    simp only [applyOp, StateTracker.decrementLikes, StateTracker.get]
    cases h : alGet m b with
    | none => simp [Except.map, opEffect, h]
    | some st => simp [Except.map, opEffect, h, alGet_alSet_self]
  | incrementComments =>
    simp only [applyOp, StateTracker.incrementComments, StateTracker.get]
    cases h : alGet m b with
    | none => simp [Except.map, opEffect, h]
    | some st => simp [Except.map, opEffect, h, alGet_alSet_self]
  | updateIPFSHash newHash =>
    simp only [applyOp, StateTracker.updateIPFSHash, StateTracker.get]
    cases h : alGet m b with
    | none => simp [Except.map, opEffect, h]
    | some st => simp [Except.map, opEffect, h, alGet_alSet_self]

/-- Interleaved calls on other ids never influence what `b`'s entry becomes. -/
theorem alGet_applyTrace_restrict (b : Int) (ops : List (Int × TrackerOp)) :
    ∀ m₁ m₂ : TrackerMap, alGet m₁ b = alGet m₂ b →
      alGet (applyTrace m₁ ops) b = alGet (applyTrace m₂ (opsFor ops b)) b := by
  induction ops with
  | nil => intro m₁ m₂ h; simpa [applyTrace, opsFor] using h
  | cons p rest ih =>
    obtain ⟨a, op⟩ := p
    intro m₁ m₂ h
    by_cases hab : a = b
    · subst hab
      simp only [opsFor, List.filter, if_pos rfl, applyTrace]
      refine ih _ _ ?_
      rw [alGet_applyOp_self, alGet_applyOp_self, h]
    · simp only [opsFor, List.filter, if_neg hab, applyTrace]
      refine ih _ _ ?_
      rw [alGet_applyOp_other m₁ a b hab, h]

theorem alGet_mem {κ α : Type} [DecidableEq κ] (m : List (κ × α)) (k : κ)
    (v : α) : alGet m k = some v → (k, v) ∈ m := by
  induction m with
  | nil => intro h; simp [alGet] at h
  | cons p rest ih =>
    obtain ⟨k', v'⟩ := p
    intro h
    by_cases hk : k' = k
    · subst hk
      simp only [alGet, eq_self_iff_true, if_true, Option.some.injEq] at h
      subst h
      exact List.mem_cons_self _ _
    · simp only [alGet, if_neg hk] at h
      exact List.mem_cons_of_mem _ (ih h)

/-- Non-negativity of every entry survives one tracker call whose seeded
counts (if any) are non-negative. -/
theorem trackerNonNeg_applyOp (m : TrackerMap) (bottleId : Int)
    (op : TrackerOp) (hm : TrackerNonNeg m) (hop : loadNonNeg op) :
    TrackerNonNeg (applyOp m bottleId op) := by
  cases op with
  | load h l c =>
    intro p hp
    rcases mem_alSet _ _ _ _ hp with h1 | h1
    · subst h1; exact hop
    · exact hm p h1
  | incrementLikes =>
    simp only [applyOp, StateTracker.incrementLikes, StateTracker.get]
    cases hg : alGet m bottleId with
    | none => simp only [Except.map]; exact hm
    | some st =>
      simp only [Except.map]
      intro p hp
      rcases mem_alSet _ _ _ _ hp with h1 | h1
      · subst h1
        have hst : NonNegState st := hm _ (alGet_mem m bottleId st hg)
        exact ⟨add_nonneg hst.1 zero_le_one, hst.2⟩
      · exact hm p h1
  | decrementLikes =>
    simp only [applyOp, StateTracker.decrementLikes, StateTracker.get]
    cases hg : alGet m bottleId with
    | none => simp only [Except.map]; exact hm
    | some st =>
      simp only [Except.map]
      intro p hp
      rcases mem_alSet _ _ _ _ hp with h1 | h1
      · subst h1
        have hst : NonNegState st := hm _ (alGet_mem m bottleId st hg)
        exact ⟨le_max_left 0 _, hst.2⟩
      · exact hm p h1
  | incrementComments =>
    simp only [applyOp, StateTracker.incrementComments, StateTracker.get]
    cases hg : alGet m bottleId with
    | none => simp only [Except.map]; exact hm
    | some st =>
      simp only [Except.map]
      intro p hp
      rcases mem_alSet _ _ _ _ hp with h1 | h1
      · subst h1
        have hst : NonNegState st := hm _ (alGet_mem m bottleId st hg)
        exact ⟨hst.1, add_nonneg hst.2 zero_le_one⟩
      · exact hm p h1
  | updateIPFSHash newHash =>
    simp only [applyOp, StateTracker.updateIPFSHash, StateTracker.get]
    cases hg : alGet m bottleId with
    | none => simp only [Except.map]; exact hm
    | some st =>
      simp only [Except.map]
      intro p hp
      rcases mem_alSet _ _ _ _ hp with h1 | h1
      · subst h1
        have hst : NonNegState st := hm _ (alGet_mem m bottleId st hg)
        exact ⟨hst.1, hst.2⟩
      · exact hm p h1

/-- Non-negativity survives any call trace whose loads are non-negative. -/
theorem trackerNonNeg_applyTrace (ops : List (Int × TrackerOp)) :
    ∀ m : TrackerMap, TrackerNonNeg m → (∀ p ∈ ops, loadNonNeg p.2) →
      TrackerNonNeg (applyTrace m ops) := by
  induction ops with
  | nil => intro m hm _; simpa [applyTrace] using hm
  | cons p rest ih =>
    obtain ⟨a, op⟩ := p
    intro m hm hops
    simp only [applyTrace]
    refine ih _ (trackerNonNeg_applyOp m a op hm ?_) ?_
    · exact hops (a, op) (List.mem_cons_self _ _)
    · intro q hq
      exact hops q (List.mem_cons_of_mem _ hq)

/-- Decrementing a zero like-count is a fixed point, over any number of
repeated calls. -/
theorem decrementLikes_zero_fixed (bottleId : Int) (st : BottleState)
    (hz : st.likeCount = 0) :
    ∀ (n : Nat) (m : TrackerMap), alGet m bottleId = some st →
      alGet (applyTrace m (List.replicate n (bottleId, TrackerOp.decrementLikes)))
        bottleId = some st := by
  intro n
  induction n with
  | zero => intro m hm; simpa [applyTrace] using hm
  | succ k ih =>
    intro m hm
    rw [List.replicate_succ]
    simp only [applyTrace]
    apply ih
    rw [alGet_applyOp_self, hm]
    obtain ⟨l, c, hsh⟩ := st
    simp only [BottleState.mk.injEq] at hz ⊢
    simp [opEffect, hz]

/-! ## Claim theorems -/

/-- C6: a second `load` for an entity replaces its state wholesale — the
resulting entry holds exactly the newly supplied like count, comment count and
hash, whatever state (if any) the tracker held for that entity before; nothing
is retained or merged from the prior state. -/
theorem load_replaces_wholesale (m : TrackerMap) (bottleId : Int)
    (ipfsHash : String) (likeCount commentCount : Int) :
    alGet (StateTracker.load m bottleId ipfsHash likeCount commentCount) bottleId
      = some { likeCount := likeCount, commentCount := commentCount,
               currentIpfsHash := ipfsHash } :=
  alGet_alSet_self m bottleId _

/-- C5: for two distinct loaded entity ids, every tracker call on one leaves
the other's `likeCount`, `commentCount` and `currentIpfsHash` exactly
unchanged, and under any interleaved trace the final state of one entity is
the state produced by its own calls alone. -/
theorem tracker_entity_isolation (a b : Int) (hab : a ≠ b) :
    (∀ (m : TrackerMap) (op : TrackerOp),
       alGet (applyOp m a op) b = alGet m b) ∧
    (∀ (m : TrackerMap) (ops : List (Int × TrackerOp)),
       alGet (applyTrace m ops) b = alGet (applyTrace m (opsFor ops b)) b) :=
  ⟨fun m op => alGet_applyOp_other m a b hab op,
   fun m ops => alGet_applyTrace_restrict b ops m m rfl⟩

/-- Witness for C5 at scenario 3 of the spec: entities 1 and 2 loaded with
`(10, 5)` and `(20, 10)`; interleaved calls on the two leave each other's
state untouched. -/
theorem tracker_entity_isolation_witness :
    alGet (applyOp sampleTrackerTwo 1 .incrementLikes) 2
      = alGet sampleTrackerTwo 2 ∧
    alGet (applyTrace sampleTrackerTwo
        [(1, .incrementLikes), (2, .decrementLikes), (1, .incrementComments)]) 2
      = alGet (applyTrace sampleTrackerTwo
          (opsFor [(1, .incrementLikes), (2, .decrementLikes),
            (1, .incrementComments)] 2)) 2 ∧
    alGet (applyTrace sampleTrackerTwo
        [(1, .incrementLikes), (2, .decrementLikes), (1, .incrementComments)]) 2
      = some { likeCount := 19, commentCount := 10, currentIpfsHash := "QmHash2" } :=
  ⟨(tracker_entity_isolation 1 2 (by decide)).1 sampleTrackerTwo .incrementLikes,
   (tracker_entity_isolation 1 2 (by decide)).2 sampleTrackerTwo _,
   by decide⟩

/-- C7: counters stay non-negative — any single call and any call trace whose
`load`s seed non-negative counts preserve non-negativity of every entry; and
`decrementLikes` on an entity whose like count is `0` returns `0` and leaves
the entry unchanged over any number of repeated calls. -/
theorem tracker_counts_nonneg :
    (∀ (m : TrackerMap) (bottleId : Int) (op : TrackerOp),
       TrackerNonNeg m → loadNonNeg op → TrackerNonNeg (applyOp m bottleId op)) ∧
    (∀ (m : TrackerMap) (ops : List (Int × TrackerOp)),
       TrackerNonNeg m → (∀ p ∈ ops, loadNonNeg p.2) →
         TrackerNonNeg (applyTrace m ops)) ∧
    (∀ (m : TrackerMap) (bottleId : Int) (st : BottleState),
       alGet m bottleId = some st → st.likeCount = 0 →
       StateTracker.decrementLikes m bottleId = .ok (0, alSet m bottleId st) ∧
       ∀ n : Nat,
         alGet (applyTrace m (List.replicate n (bottleId, TrackerOp.decrementLikes)))
           bottleId = some st) := by
  refine ⟨fun m bottleId op hm hop => trackerNonNeg_applyOp m bottleId op hm hop,
    fun m ops hm hops => trackerNonNeg_applyTrace ops m hm hops,
    fun m bottleId st hg hz => ⟨?_, fun n => decrementLikes_zero_fixed bottleId st hz n m hg⟩⟩
  obtain ⟨l, c, hsh⟩ := st
  simp only [BottleState.mk.injEq] at hz
  subst hz
  simp [StateTracker.decrementLikes, StateTracker.get, hg, Except.map]

/-- Witness for C7: the non-negativity invariant and the decrement floor,
evaluated on concrete trackers. -/
theorem tracker_counts_nonneg_witness :
    (TrackerNonNeg sampleTrackerTwo ∧ loadNonNeg (.load "QmHash3" 0 0) ∧
      TrackerNonNeg (applyOp sampleTrackerTwo 3 (.load "QmHash3" 0 0))) ∧
    (alGet sampleTrackerZeroLikes 1
        = some { likeCount := 0, commentCount := 4, currentIpfsHash := "QmTest123" } ∧
      StateTracker.decrementLikes sampleTrackerZeroLikes 1
        = .ok (0, alSet sampleTrackerZeroLikes 1
            { likeCount := 0, commentCount := 4, currentIpfsHash := "QmTest123" }) ∧
      alGet (applyTrace sampleTrackerZeroLikes
          (List.replicate 5 ((1 : Int), TrackerOp.decrementLikes))) 1
        = some { likeCount := 0, commentCount := 4, currentIpfsHash := "QmTest123" }) :=
  ⟨⟨by decide, by decide,
    tracker_counts_nonneg.1 sampleTrackerTwo 3 (.load "QmHash3" 0 0)
      (by decide) (by decide)⟩,
   ⟨by decide,
    (tracker_counts_nonneg.2.2 sampleTrackerZeroLikes 1
      { likeCount := 0, commentCount := 4, currentIpfsHash := "QmTest123" }
      (by decide) rfl).1,
    (tracker_counts_nonneg.2.2 sampleTrackerZeroLikes 1
      { likeCount := 0, commentCount := 4, currentIpfsHash := "QmTest123" }
      (by decide) rfl).2 5⟩⟩

/-- C1: in `syncBottleCommentCount`, when the content-store write succeeds but
the ledger pointer update throws, the error propagates to the caller
unchanged, and the tracker the caller is left with still holds the entity's
pre-sync state (in particular its pre-sync `currentIpfsHash`); only when the
ledger update succeeds does the call return a tracker whose pointer is the new
hash. -/
theorem syncCommentCount_pointer_not_advanced (tracker : TrackerMap)
    (bottleId : Int) (st : BottleState)
    (storeWrite : String → Int → Except JSError UploadResult)
    (ledgerUpdate : Int → String → Except JSError Unit)
    (r : UploadResult) (e : JSError)
    (hload : alGet tracker bottleId = some st)
    (hstore : storeWrite st.currentIpfsHash st.commentCount = .ok r)
    (hledger : ledgerUpdate bottleId r.cid = .error e) :
    IPFSCountSync.syncBottleCommentCount tracker bottleId storeWrite ledgerUpdate
      = .error e ∧
    alGet (IPFSCountSync.syncOutcomeTracker tracker
        (IPFSCountSync.syncBottleCommentCount tracker bottleId storeWrite
          ledgerUpdate)) bottleId = some st ∧
    (∀ ledgerOk : Int → String → Except JSError Unit,
       ledgerOk bottleId r.cid = .ok () →
       IPFSCountSync.syncBottleCommentCount tracker bottleId storeWrite ledgerOk
         = .ok (alSet tracker bottleId { st with currentIpfsHash := r.cid })) := by
  have hfail :
      IPFSCountSync.syncBottleCommentCount tracker bottleId storeWrite ledgerUpdate
        = .error e := by
    simp [IPFSCountSync.syncBottleCommentCount, StateTracker.get, hload, hstore,
      hledger]
  refine ⟨hfail, ?_, ?_⟩
  · rw [hfail]
    simpa [IPFSCountSync.syncOutcomeTracker] using hload
  · intro ledgerOk hOk
    simp [IPFSCountSync.syncBottleCommentCount, StateTracker.get, hload, hstore,
      hOk, StateTracker.updateIPFSHash, Except.map]

/-- Witness for C1 at scenario 2 of the spec: bottle 2 at `(100, 4)` with
pointer `QmH0`; the store returns `QmH1` but the ledger call throws — the
error surfaces and the pointer stays `QmH0`. -/
theorem syncCommentCount_pointer_not_advanced_witness :
    IPFSCountSync.syncBottleCommentCount
        [((2 : Int), { likeCount := 100, commentCount := 4, currentIpfsHash := "QmH0" })]
        2 (fun _ _ => .ok { cid := "QmH1", size := 120, url := "https://gw/QmH1" })
        (fun _ _ => .error (.plain "ledger down"))
      = .error (.plain "ledger down") ∧
    alGet (IPFSCountSync.syncOutcomeTracker
        [((2 : Int), { likeCount := 100, commentCount := 4, currentIpfsHash := "QmH0" })]
        (IPFSCountSync.syncBottleCommentCount
          [((2 : Int), { likeCount := 100, commentCount := 4, currentIpfsHash := "QmH0" })]
          2 (fun _ _ => .ok { cid := "QmH1", size := 120, url := "https://gw/QmH1" })
          (fun _ _ => .error (.plain "ledger down")))) 2
      = some { likeCount := 100, commentCount := 4, currentIpfsHash := "QmH0" } :=
  ⟨(syncCommentCount_pointer_not_advanced
      [((2 : Int), { likeCount := 100, commentCount := 4, currentIpfsHash := "QmH0" })] 2
      { likeCount := 100, commentCount := 4, currentIpfsHash := "QmH0" }
      (fun _ _ => .ok { cid := "QmH1", size := 120, url := "https://gw/QmH1" })
      (fun _ _ => .error (.plain "ledger down"))
      { cid := "QmH1", size := 120, url := "https://gw/QmH1" }
      (.plain "ledger down") (by decide) rfl rfl).1,
   (syncCommentCount_pointer_not_advanced
      [((2 : Int), { likeCount := 100, commentCount := 4, currentIpfsHash := "QmH0" })] 2
      { likeCount := 100, commentCount := 4, currentIpfsHash := "QmH0" }
      (fun _ _ => .ok { cid := "QmH1", size := 120, url := "https://gw/QmH1" })
      (fun _ _ => .error (.plain "ledger down"))
      { cid := "QmH1", size := 120, url := "https://gw/QmH1" }
      (.plain "ledger down") (by decide) rfl rfl).2.1⟩

/-- C8: `promote` never issues a promotion request when the ledger already
reports the bottle as forever — with thresholds met and the ledger flag
reading `true`, every one of any number of repeated calls returns without
invoking `markBottleAsForever`; and a promotion request is issued only when
the flag read `false`. -/
theorem promote_idempotent (tracker : TrackerMap) (bottleId : Int)
    (thresholds : ForeverThresholds) (st : BottleState)
    (markResult : Except JSError Unit)
    (hload : alGet tracker bottleId = some st)
    (hmeets : st.likeCount ≥ thresholds.likes ∧
              st.commentCount ≥ thresholds.comments) :
    ForeverManager.promote tracker bottleId thresholds
        (.ok { isForever := true }) markResult = .ok false ∧
    (∀ (n : Nat) r,
       r ∈ List.replicate n (ForeverManager.promote tracker bottleId thresholds
         (.ok { isForever := true }) markResult) → r = .ok false) ∧
    (∀ (getBottle : Except JSError LedgerBottle),
       ForeverManager.promote tracker bottleId thresholds getBottle markResult
         = .ok true → getBottle = .ok { isForever := false }) := by
  have hdec : decide (st.likeCount ≥ thresholds.likes ∧
      st.commentCount ≥ thresholds.comments) = true := by
    rw [decide_eq_true_eq]; exact hmeets
  have hnoreq : ForeverManager.promote tracker bottleId thresholds
      (.ok { isForever := true }) markResult = .ok false := by
    simp [ForeverManager.promote, ForeverManager.meetsThreshold, StateTracker.get,
      hload, Except.map, hdec]
  refine ⟨hnoreq, ?_, ?_⟩
  · intro n r hr
    rw [List.eq_of_mem_replicate hr]
    exact hnoreq
  · intro getBottle hissued
    rcases getBottle with e | b
    · exfalso
      revert hissued
      simp [ForeverManager.promote, ForeverManager.meetsThreshold,
        StateTracker.get, hload, Except.map, hdec]
    · obtain ⟨flag⟩ := b
      cases flag with
      | false =>
        rcases markResult with e | u
        · exfalso
          revert hissued
          simp [ForeverManager.promote, ForeverManager.meetsThreshold,
            StateTracker.get, hload, Except.map, hdec]
        · rfl
      | true =>
        exfalso
        revert hissued
        simp [ForeverManager.promote, ForeverManager.meetsThreshold,
          StateTracker.get, hload, Except.map, hdec]

/-- Witness for C8: bottle 1 at `(100, 4)` with thresholds `{100, 4}` and a
ledger already reporting forever — `promote` returns without requesting a
promotion, on each of three repeated calls. -/
theorem promote_idempotent_witness :
    ForeverManager.promote
        [((1 : Int), { likeCount := 100, commentCount := 4, currentIpfsHash := "QmTest123" })]
        1 { likes := 100, comments := 4 } (.ok { isForever := true }) (.ok ())
      = .ok false ∧
    (∀ r, r ∈ List.replicate 3 (ForeverManager.promote
        [((1 : Int), { likeCount := 100, commentCount := 4, currentIpfsHash := "QmTest123" })]
        1 { likes := 100, comments := 4 } (.ok { isForever := true }) (.ok ())) →
      r = .ok false) :=
  ⟨(promote_idempotent
      [((1 : Int), { likeCount := 100, commentCount := 4, currentIpfsHash := "QmTest123" })]
      1 { likes := 100, comments := 4 }
      { likeCount := 100, commentCount := 4, currentIpfsHash := "QmTest123" }
      (.ok ()) (by decide) (by decide)).1,
   fun r hr => (promote_idempotent
      [((1 : Int), { likeCount := 100, commentCount := 4, currentIpfsHash := "QmTest123" })]
      1 { likes := 100, comments := 4 }
      { likeCount := 100, commentCount := 4, currentIpfsHash := "QmTest123" }
      (.ok ()) (by decide) (by decide)).2.1 3 r hr⟩

/-! ## Cache and service lemmas -/

/-- A `getFromCache` miss leaves no binding for the key in the returned
cache (the entry was either absent or lazily evicted). -/
theorem getFromCache_miss (c : Cache) (cid : String) (now : Int) (c' : Cache) :
    IPFSService.getFromCache c cid now = (none, c') → alGet c' cid = none := by
  unfold IPFSService.getFromCache
  cases hg : alGet c cid with
  | none =>
    intro h
    simp only [Prod.mk.injEq] at h
    rw [← h.2]
    exact hg
  | some entry =>
    by_cases he : now > entry.expiresAt
    · simp only [he, if_true, Prod.mk.injEq]
      intro h
      rw [← h.2]
      exact alGet_alDelete_self c cid
    · simp [he]

/-- Every error `validateItem` produces carries the `PARSE_FAILED` code. -/
theorem validateItem_error_code (d : RawData) (pe : JSError) :
    IPFSService.validateItem d = .error pe →
      pe.codeOf = some IPFSErrorCode.PARSE_FAILED := by
  cases d with
  | none =>
    simp only [IPFSService.validateItem]
    intro h
    simp only [Except.error.injEq] at h
    subst h
    rfl
  | some fs =>
    simp only [IPFSService.validateItem]
    split_ifs with h1 h2 h3 h4 h5 <;> intro h <;>
      simp only [Except.error.injEq] at h
    all_goals (subst h; rfl)

/-- A document whose `type` field reads `comment` is not a bottle. -/
theorem typeIs_comment_not_bottle (d : RawData) :
    d.typeIs "comment" = true → d.typeIs "bottle" = false := by
  cases d with
  | none => simp [RawData.typeIs]
  | some fs =>
    simp only [RawData.typeIs, decide_eq_true_eq, decide_eq_false_iff_not]
    intro h
    rw [h]
    simp

/-- A document whose `type` field reads `bottle` is an object. -/
theorem typeIs_bottle_some (d : RawData) :
    d.typeIs "bottle" = true → ∃ fs, d = some fs := by
  cases d with
  | none => simp [RawData.typeIs]
  | some fs => intro _; exact ⟨fs, rfl⟩

/-- C2 (counterexample): a payload stored at time 0 with TTL 300000 ms is
still returned by a lookup at exactly time 300000 — the claim's "absent for
lookups at time ≥ T+Δ" fails at the boundary, because the code evicts only
when `now > expiresAt`. -/
theorem cache_expiry_boundary_counterexample :
    (IPFSService.getFromCache
        (IPFSService.storeInCache [] "QmCID1" sampleBottlePayload 0 300000)
        "QmCID1" 300000).1 = some sampleBottlePayload ∧
    (IPFSService.getFromCache
        (IPFSService.storeInCache [] "QmCID1" sampleBottlePayload 0 300000)
        "QmCID1" 300000).1 ≠ none := by
  constructor
  · rfl
  · intro h
    simp only [IPFSService.getFromCache, IPFSService.storeInCache] at h
    revert h
    decide

/-- C2 (amended): an entry stored at time T with TTL Δ is returned unmodified
by any lookup at time t ≤ T+Δ, and for any lookup at time t > T+Δ it is
treated as absent and lazily removed. -/
theorem cache_expiry_amended (c : Cache) (cid : String) (d : RawData)
    (T ttl t : Int) :
    (t ≤ T + ttl →
       IPFSService.getFromCache (IPFSService.storeInCache c cid d T ttl) cid t
         = (some d, IPFSService.storeInCache c cid d T ttl)) ∧
    (T + ttl < t →
       (IPFSService.getFromCache (IPFSService.storeInCache c cid d T ttl) cid t).1
           = none ∧
       alGet (IPFSService.getFromCache
           (IPFSService.storeInCache c cid d T ttl) cid t).2 cid = none) := by
  constructor
  · intro h
    have hn : ¬ (t > T + ttl) := not_lt.mpr h
    simp [IPFSService.getFromCache, IPFSService.storeInCache, alGet_alSet_self, hn]
  · intro h
    simp [IPFSService.getFromCache, IPFSService.storeInCache, alGet_alSet_self, h,
      alGet_alDelete_self]

/-- Witness for C2 (amended), at the spec's scenario 4 boundary values:
stored at t=0 with TTL 300000, present at t=299999, absent at t=300001. -/
theorem cache_expiry_amended_witness :
    ((299999 : Int) ≤ 0 + 300000 ∧
      IPFSService.getFromCache
          (IPFSService.storeInCache [] "QmCID1" sampleBottlePayload 0 300000)
          "QmCID1" 299999
        = (some sampleBottlePayload,
           IPFSService.storeInCache [] "QmCID1" sampleBottlePayload 0 300000)) ∧
    ((0 : Int) + 300000 < 300001 ∧
      (IPFSService.getFromCache
          (IPFSService.storeInCache [] "QmCID1" sampleBottlePayload 0 300000)
          "QmCID1" 300001).1 = none) :=
  ⟨⟨by decide,
    (cache_expiry_amended [] "QmCID1" sampleBottlePayload 0 300000 299999).1
      (by decide)⟩,
   ⟨by decide,
    ((cache_expiry_amended [] "QmCID1" sampleBottlePayload 0 300000 300001).2
      (by decide)).1⟩⟩

/-- C3 (counterexample): for a fetched payload whose `message` field is not a
string, the error `getItem` surfaces carries the code `FETCH_FAILED`, not
`PARSE_FAILED` — the catch-all wraps the validation error, so the claim's
"surfaces a ParseFailed error" fails as stated (the `PARSE_FAILED` error is
only the wrapper's `originalError`). -/
theorem getItem_parse_error_counterexample :
    errCodeOf (IPFSService.getItem emptyService "QmBad" 0
        (.body badPayload)).1 = some IPFSErrorCode.FETCH_FAILED ∧
    errCodeOf (IPFSService.getItem emptyService "QmBad" 0
        (.body badPayload)).1 ≠ some IPFSErrorCode.PARSE_FAILED ∧
    errOriginalCodeOf (IPFSService.getItem emptyService "QmBad" 0
        (.body badPayload)).1 = some IPFSErrorCode.PARSE_FAILED :=
  ⟨rfl, fun h => by simp only [errCodeOf] at h; revert h; decide, rfl⟩

/-- C3 (amended): when the fetched payload fails structural validation on a
cache miss, `getItem` surfaces a `FETCH_FAILED` wrapper whose `originalError`
is the `PARSE_FAILED` validation error, and the malformed payload is never
stored — the returned cache has no entry for that hash. -/
theorem getItem_parse_failure_wrapped (s : ServiceState) (cid : String)
    (now : Int) (data : RawData) (pe : JSError) (c' : Cache)
    (hmiss : IPFSService.getFromCache s.cache cid now = (none, c'))
    (hval : IPFSService.validateItem data = .error pe) :
    IPFSService.getItem s cid now (.body data)
      = (.error (IPFSService.fetchFailed cid pe), { s with cache := c' }) ∧
    pe.codeOf = some IPFSErrorCode.PARSE_FAILED ∧
    (IPFSService.fetchFailed cid pe).codeOf = some IPFSErrorCode.FETCH_FAILED ∧
    (IPFSService.fetchFailed cid pe).originalCodeOf
      = some IPFSErrorCode.PARSE_FAILED ∧
    alGet c' cid = none := by
  refine ⟨?_, validateItem_error_code data pe hval, rfl, ?_, getFromCache_miss _ _ _ _ hmiss⟩
  · simp [IPFSService.getItem, hmiss, hval]
  · simp only [IPFSService.fetchFailed, JSError.originalCodeOf]
    exact validateItem_error_code data pe hval

/-- Witness for C3 (amended): `badPayload` fetched into an empty service. -/
theorem getItem_parse_failure_wrapped_witness :
    IPFSService.getItem emptyService "QmBad" 0 (.body badPayload)
      = (.error (IPFSService.fetchFailed "QmBad"
          (IPFSService.parseError
            "Invalid data: missing or invalid \"message\" field")),
         { emptyService with cache := [] }) ∧
    alGet ([] : Cache) "QmBad" = none :=
  ⟨(getItem_parse_failure_wrapped emptyService "QmBad" 0 badPayload
      (IPFSService.parseError "Invalid data: missing or invalid \"message\" field")
      [] rfl rfl).1,
   (getItem_parse_failure_wrapped emptyService "QmBad" 0 badPayload
      (IPFSService.parseError "Invalid data: missing or invalid \"message\" field")
      [] rfl rfl).2.2.2.2⟩

/-- C9: whenever `updateBottleCounts` completes successfully, the cache entry
for the original hash was deleted (before the new snapshot was uploaded, and
nothing re-inserts it), so the final cache holds no entry for that hash. -/
theorem updateBottleCounts_cache_cleared (s : ServiceState)
    (originalCid : String) (likeCount commentCount now : Int)
    (outcome : IPFSService.FetchOutcome)
    (upload : RawData → Except JSError UploadResult)
    (r : UploadResult) (s' : ServiceState)
    (h : IPFSService.updateBottleCounts s originalCid likeCount commentCount
        now outcome upload = (.ok r, s')) :
    alGet s'.cache originalCid = none := by
  unfold IPFSService.updateBottleCounts at h
  rcases hget : IPFSService.getItem s originalCid now outcome with ⟨res, s1⟩
  rw [hget] at h
  cases res with
  | error e => simp at h
  | ok originalBottle =>
    by_cases ht : originalBottle.typeIs "bottle" = true
    · simp only [ht, if_true, Prod.mk.injEq] at h
      rw [← h.2]
      exact alGet_alDelete_self s1.cache originalCid
    · simp [ht] at h

/-- Witness for C9: a successful counts update on a freshly fetched bottle
leaves no cache entry for the original hash. -/
theorem updateBottleCounts_cache_cleared_witness :
    IPFSService.updateBottleCounts emptyService "QmOrig" 7 2 0
        (.body sampleBottlePayload) sampleUpload
      = (.ok { cid := "QmNew", size := 100, url := "https://gw/QmNew" },
         emptyService) ∧
    alGet emptyService.cache "QmOrig" = none :=
  ⟨rfl,
   updateBottleCounts_cache_cleared emptyService "QmOrig" 7 2 0
     (.body sampleBottlePayload) sampleUpload
     { cid := "QmNew", size := 100, url := "https://gw/QmNew" }
     emptyService rfl⟩

/-- C10: when the fetched payload validates but reads `type = "comment"`,
`updateBottleCounts` fails with a `PARSE_FAILED` error ("CID does not point to
a bottle") and the result is the same for every upload collaborator — no
upload is performed. -/
theorem updateBottleCounts_comment_rejected (s : ServiceState) (cid : String)
    (likeCount commentCount now : Int) (outcome : IPFSService.FetchOutcome)
    (orig : RawData) (s1 : ServiceState)
    (hget : IPFSService.getItem s cid now outcome = (.ok orig, s1))
    (htype : orig.typeIs "comment" = true) :
    ∀ upload : RawData → Except JSError UploadResult,
      IPFSService.updateBottleCounts s cid likeCount commentCount now outcome
          upload
        = (.error (.ipfs .PARSE_FAILED "CID does not point to a bottle" none),
           s1) := by
  intro upload
  have hnb : orig.typeIs "bottle" = false := typeIs_comment_not_bottle orig htype
  unfold IPFSService.updateBottleCounts
  rw [hget]
  simp [hnb]

/-- Witness for C10: `sampleCommentPayload` fetched into an empty service;
the update fails with `PARSE_FAILED` and the (cached-comment) state is
returned unchanged by the rejected call. -/
theorem updateBottleCounts_comment_rejected_witness :
    IPFSService.getItem emptyService "QmC" 0 (.body sampleCommentPayload)
      = (.ok sampleCommentPayload, serviceWithCommentCached) ∧
    IPFSService.updateBottleCounts emptyService "QmC" 7 2 0
        (.body sampleCommentPayload) sampleUpload
      = (.error (.ipfs .PARSE_FAILED "CID does not point to a bottle" none),
         serviceWithCommentCached) :=
  ⟨rfl,
   updateBottleCounts_comment_rejected emptyService "QmC" 7 2 0
     (.body sampleCommentPayload) sampleCommentPayload serviceWithCommentCached
     rfl rfl sampleUpload⟩

/-- C4: `syncBottleCounts` asks the content store to write exactly the prior
payload — fetched via the tracker's current hash — with its `likeCount` and
`commentCount` fields replaced by the tracker's current counters: the sync
call reduces to the ledger/tracker continuation applied to the upload of that
payload, whose `likeCount`/`commentCount` fields carry the tracker's values
and whose every other field equals the fetched payload's. -/
theorem syncCounts_uploads_replaced_payload (tracker : TrackerMap)
    (bottleId : Int) (st : BottleState) (s : ServiceState) (now : Int)
    (outcome : IPFSService.FetchOutcome) (orig : RawData) (s1 : ServiceState)
    (hload : alGet tracker bottleId = some st)
    (hget : IPFSService.getItem s st.currentIpfsHash now outcome
      = (.ok orig, s1))
    (htype : orig.typeIs "bottle" = true) :
    (∀ (upload : RawData → Except JSError UploadResult)
       (ledgerUpdate : Int → String → Except JSError Unit),
       IPFSCountSync.syncBottleCounts tracker bottleId s now outcome upload
           ledgerUpdate
         = IPFSCountSync.syncFinish tracker bottleId
             (IPFSService.uploadJSON upload
               (IPFSService.setCounts orig st.likeCount st.commentCount),
              { s1 with cache := alDelete s1.cache st.currentIpfsHash })
             ledgerUpdate) ∧
    (IPFSService.setCounts orig st.likeCount st.commentCount).fieldOf
        "likeCount" = some (.jnum st.likeCount) ∧
    (IPFSService.setCounts orig st.likeCount st.commentCount).fieldOf
        "commentCount" = some (.jnum st.commentCount) ∧
    (∀ k : String, k ≠ "likeCount" → k ≠ "commentCount" →
       (IPFSService.setCounts orig st.likeCount st.commentCount).fieldOf k
         = orig.fieldOf k) := by
  obtain ⟨fs, rfl⟩ := typeIs_bottle_some orig htype
  refine ⟨?_, ?_, ?_, ?_⟩
  · intro upload ledgerUpdate
    simp only [IPFSCountSync.syncBottleCounts, StateTracker.get, hload]
    congr 1
    unfold IPFSService.updateBottleCounts
    rw [hget]
    simp [htype]
  · simp only [IPFSService.setCounts, RawData.fieldOf, objGet, objSet]
    rw [alGet_alSet_ne _ "commentCount" "likeCount" _ (by decide)]
    exact alGet_alSet_self fs "likeCount" _
  · simp only [IPFSService.setCounts, RawData.fieldOf, objGet, objSet]
    exact alGet_alSet_self _ "commentCount" _
  · intro k hk1 hk2
    simp only [IPFSService.setCounts, RawData.fieldOf, objGet, objSet]
    rw [alGet_alSet_ne _ "commentCount" k _ (Ne.symm hk2),
      alGet_alSet_ne _ "likeCount" k _ (Ne.symm hk1)]

/-- Witness for C4: bottle 1 at `(100, 4)` pointing to `QmOrig`; the sync
uploads `sampleBottlePayload` with its counts replaced by `(100, 4)` and all
other fields intact. -/
theorem syncCounts_uploads_replaced_payload_witness :
    IPFSCountSync.syncBottleCounts
        [((1 : Int), { likeCount := 100, commentCount := 4, currentIpfsHash := "QmOrig" })]
        1 emptyService 0 (.body sampleBottlePayload) sampleUpload sampleLedgerOk
      = IPFSCountSync.syncFinish
          [((1 : Int), { likeCount := 100, commentCount := 4, currentIpfsHash := "QmOrig" })]
          1 (IPFSService.uploadJSON sampleUpload
              (IPFSService.setCounts sampleBottlePayload 100 4),
             { serviceWithBottleCached with
                cache := alDelete serviceWithBottleCached.cache "QmOrig" })
          sampleLedgerOk ∧
    (IPFSService.setCounts sampleBottlePayload 100 4).fieldOf "likeCount"
      = some (.jnum 100) ∧
    (IPFSService.setCounts sampleBottlePayload 100 4).fieldOf "commentCount"
      = some (.jnum 4) ∧
    (IPFSService.setCounts sampleBottlePayload 100 4).fieldOf "message"
      = sampleBottlePayload.fieldOf "message" :=
  ⟨(syncCounts_uploads_replaced_payload
      [((1 : Int), { likeCount := 100, commentCount := 4, currentIpfsHash := "QmOrig" })]
      1 { likeCount := 100, commentCount := 4, currentIpfsHash := "QmOrig" }
      emptyService 0 (.body sampleBottlePayload) sampleBottlePayload
      serviceWithBottleCached rfl rfl rfl).1 sampleUpload sampleLedgerOk,
   (syncCounts_uploads_replaced_payload
      [((1 : Int), { likeCount := 100, commentCount := 4, currentIpfsHash := "QmOrig" })]
      1 { likeCount := 100, commentCount := 4, currentIpfsHash := "QmOrig" }
      emptyService 0 (.body sampleBottlePayload) sampleBottlePayload
      serviceWithBottleCached rfl rfl rfl).2.1,
   (syncCounts_uploads_replaced_payload
      [((1 : Int), { likeCount := 100, commentCount := 4, currentIpfsHash := "QmOrig" })]
      1 { likeCount := 100, commentCount := 4, currentIpfsHash := "QmOrig" }
      emptyService 0 (.body sampleBottlePayload) sampleBottlePayload
      serviceWithBottleCached rfl rfl rfl).2.2.1,
   (syncCounts_uploads_replaced_payload
      [((1 : Int), { likeCount := 100, commentCount := 4, currentIpfsHash := "QmOrig" })]
      1 { likeCount := 100, commentCount := 4, currentIpfsHash := "QmOrig" }
      emptyService 0 (.body sampleBottlePayload) sampleBottlePayload
      serviceWithBottleCached rfl rfl rfl).2.2.2 "message" (by decide) (by decide)⟩

end ForeverMessage
